import Mathlib

set_option maxHeartbeats 1000000

/-!
Shallow embedding of `aws/resource_aws_ami.go`: the lifecycle logic
(Create / Read / Update / Delete) of the `aws_ami` terraform resource,
together with its state-refresh function and the two waiter
configurations.  Remote calls are modelled as an explicit trace of
`Action` values; the answers of the remote system are supplied by explicit
environment records, so every function is a pure, executable Lean
definition mirroring the Go control flow.
-/

namespace TerraformProviderAws

/-- An AWS API error as seen by the provider: the code inspected by
`isAWSErr` and the rendered message. -/
structure AwsError where
  code : String
  message : String
  deriving DecidableEq, Repr

/-- The slice of an `ec2.Image` record that the resource logic inspects. -/
structure Image where
  imageId : String
  state : String
  deriving DecidableEq, Repr

/-- One element of the `ebs_block_device` set of the resource schema
(`device_name`, `delete_on_termination`, `encrypted`, `iops`,
`snapshot_id`, `volume_size`, `volume_type`), with the zero
values standing for unset optionals, exactly as `d.Get` delivers them. -/
structure EbsMapping where
  deviceName : String
  deleteOnTermination : Bool
  encrypted : Bool
  iops : Int
  snapshotId : String
  volumeSize : Int
  volumeType : String
  deriving DecidableEq, Repr

/-- One element of the `ephemeral_block_device` set of the resource schema. -/
structure EphemeralMapping where
  deviceName : String
  virtualName : String
  deriving DecidableEq, Repr

/-- The `ec2.EbsBlockDevice` request struct; pointer fields are `Option`
(`none` = field absent from the outbound request). -/
structure EbsBlockDevice where
  deleteOnTermination : Bool
  volumeType : String
  iops : Option Int
  volumeSize : Option Int
  snapshotId : Option String
  encrypted : Option Bool
  deriving DecidableEq, Repr

/-- The `ec2.BlockDeviceMapping` request struct. -/
structure BlockDeviceMapping where
  deviceName : String
  ebs : Option EbsBlockDevice
  virtualName : Option String
  deriving DecidableEq, Repr

/-- The `ec2.RegisterImageInput` request struct, restricted to the fields
`resourceAwsAmiCreate` populates. -/
structure RegisterImageInput where
  name : String
  description : String
  architecture : String
  imageLocation : String
  rootDeviceName : String
  sriovNetSupport : String
  virtualizationType : String
  enaSupport : Bool
  kernelId : Option String
  ramdiskId : Option String
  blockDeviceMappings : List BlockDeviceMapping
  deriving DecidableEq, Repr

/-- The declared configuration of one `aws_ami` resource instance, i.e.
the values `d.Get` returns for each schema key inside the CRUD
functions.  `manageEbsSnapshots` is the computed `manage_ebs_snapshots`
flag consulted by Delete. -/
structure DesiredConfig where
  name : String
  description : String
  architecture : String
  imageLocation : String
  rootDeviceName : String
  sriovNetSupport : String
  virtualizationType : String
  enaSupport : Bool
  kernelId : String
  ramdiskId : String
  ebsBlockDevices : List EbsMapping
  ephemeralBlockDevices : List EphemeralMapping
  tags : List (String × String)
  manageEbsSnapshots : Bool
  deriving DecidableEq, Repr

/-- One remote interaction issued by the resource logic.  `waitForAvailable`
and `waitForDestroy` stand for invocations of the corresponding waiter
(`resourceAwsAmiWaitForAvailable` / `resourceAwsAmiWaitForDestroy`), and
`read` for the delegation to `resourceAwsAmiRead`. -/
inductive Action where
  | registerImage (req : RegisterImageInput)
  | createTags (id : String) (tags : List (String × String))
  | waitForAvailable (id : String)
  | read (id : String)
  | removeTags (id : String) (keys : List String)
  | applyTags (id : String) (tags : List (String × String))
  | modifyImageAttribute (id : String) (description : String)
  | deregisterImage (id : String)
  | deleteSnapshot (snapshotId : String)
  | waitForDestroy (id : String)
  deriving DecidableEq, Repr

/-- Translation of one `ebs_block_device` entry into a
`BlockDeviceMapping`, mirroring the loop body of `resourceAwsAmiCreate`:
zero `iops` and zero `volume_size` are omitted; a non-empty
`snapshot_id` together with `encrypted` is a configuration error;
`Encrypted` is sent only when `encrypted` is set without a snapshot. -/
def ebsDevToMapping (e : EbsMapping) : Except String BlockDeviceMapping :=
  let base : EbsBlockDevice :=
    { deleteOnTermination := e.deleteOnTermination
      volumeType := e.volumeType
      iops := if e.iops ≠ 0 then some e.iops else none
      volumeSize := if e.volumeSize ≠ 0 then some e.volumeSize else none
      snapshotId := none
      encrypted := none }
  if e.snapshotId ≠ "" then
    if e.encrypted then
      Except.error "can\x27t set both \x27snapshot_id\x27 and \x27encrypted\x27"
    else
      Except.ok { deviceName := e.deviceName
                  ebs := some { base with snapshotId := some e.snapshotId }
                  virtualName := none }
  else if e.encrypted then
    Except.ok { deviceName := e.deviceName
                ebs := some { base with encrypted := some true }
                virtualName := none }
  else
    Except.ok { deviceName := e.deviceName, ebs := some base, virtualName := none }

/-- Translation of the whole `ebs_block_device` collection, stopping at
the first entry that violates the snapshot/encrypted exclusion, exactly
as the Go loop returns from inside its body. -/
def translateEbsDevs : List EbsMapping → Except String (List BlockDeviceMapping)
  | [] => Except.ok []
  | e :: rest =>
    match ebsDevToMapping e with
    | Except.error msg => Except.error msg
    | Except.ok m =>
      match translateEbsDevs rest with
      | Except.error msg => Except.error msg
      | Except.ok ms => Except.ok (m :: ms)

/-- Translation of one `ephemeral_block_device` entry. -/
def ephemeralToMapping (e : EphemeralMapping) : BlockDeviceMapping :=
  { deviceName := e.deviceName, ebs := none, virtualName := some e.virtualName }

/-- Construction of the `RegisterImageInput` request from the declared
configuration, mirroring lines 235-292 of `resourceAwsAmiCreate`: the
scalar fields are copied, empty `kernel_id` / `ramdisk_id` are omitted,
and the block-device mappings are the translated ebs entries followed by
the translated ephemeral entries. -/
def buildRegisterImageRequest (cfg : DesiredConfig) : Except String RegisterImageInput :=
  match translateEbsDevs cfg.ebsBlockDevices with
  | Except.error msg => Except.error msg
  | Except.ok ebsMs =>
    Except.ok
      { name := cfg.name
        description := cfg.description
        architecture := cfg.architecture
        imageLocation := cfg.imageLocation
        rootDeviceName := cfg.rootDeviceName
        sriovNetSupport := cfg.sriovNetSupport
        virtualizationType := cfg.virtualizationType
        enaSupport := cfg.enaSupport
        kernelId := if cfg.kernelId ≠ "" then some cfg.kernelId else none
        ramdiskId := if cfg.ramdiskId ≠ "" then some cfg.ramdiskId else none
        blockDeviceMappings := ebsMs ++ cfg.ephemeralBlockDevices.map ephemeralToMapping }

/-- Status constants of the remote lifecycle state machine.  Modelled from
the spec: the status names (`ec2.ImageState*` SDK constants, not under
src/) are `pending`, `available`, `failed` and the terminal
`deregistered`; the waiters additionally use the synthetic `destroyed`. -/
def ImageStatePending : String := "pending"

/-- Status constant: the available terminal state. -/
def ImageStateAvailable : String := "available"

/-- Status constant: the failed terminal state. -/
def ImageStateFailed : String := "failed"

/-- Status constant: the deregistered terminal state. -/
def ImageStateDeregistered : String := "deregistered"

/-- The `AMIStateRefreshFunc` probe (lines 516-538): one `DescribeImages`
answer, given as the response images (`none` for a nil response) and an
optional error, is mapped to either a refresh error or a pair of the
returned record and its status string.  A not-found error, an error with
an empty non-nil response, and any empty response all yield the
synthetic `destroyed` status. -/
def AMIStateRefreshFunc (resp : Option (List Image)) (err : Option AwsError) :
    Except String (Option Image × String) :=
  match err with
  | some e =>
    if e.code = "InvalidAMIID.NotFound" then Except.ok (none, "destroyed")
    else
      match resp with
      | some [] => Except.ok (none, "destroyed")
      | _ => Except.error ("Error on refresh: " ++ e.message)
  | none =>
    match resp with
    | none => Except.ok (none, "destroyed")
    | some [] => Except.ok (none, "destroyed")
    | some (img :: _) => Except.ok (some img, img.state)

/-- Pending statuses of the availability waiter
(`resourceAwsAmiWaitForAvailable`, line 564). -/
def amiAvailablePendingStates : List String := [ImageStatePending]

/-- Target statuses of the availability waiter (line 565). -/
def amiAvailableTargetStates : List String := [ImageStateAvailable]

/-- Pending statuses of the destroy waiter
(`resourceAwsAmiWaitForDestroy`, line 544). -/
def amiDestroyPendingStates : List String :=
  [ImageStateAvailable, ImageStatePending, ImageStateFailed]

/-- Target statuses of the destroy waiter (line 545). -/
def amiDestroyTargetStates : List String := ["destroyed"]

/-- Classification of one refreshed status by a waiter. -/
inductive WaitKind where
  | continueWaiting
  | done
  | unexpected
  deriving DecidableEq, Repr

/-- Modelled from the spec: the generic waiter
(`resource.StateChangeConf.WaitForState` of the terraform plugin SDK, not
under src/) keeps polling while the status is in `pending`, succeeds when
it is in `target`, and treats any status outside both as a non-retryable
failure returned immediately. -/
def classifyStatus (pending target : List String) (st : String) : WaitKind :=
  if st ∈ target then WaitKind.done
  else if st ∈ pending then WaitKind.continueWaiting
  else WaitKind.unexpected

/-- Result of a Read: the tracked identifier after the call (`""` when
the resource was removed from state via `d.SetId("")`), the returned
error, and the observed image on a successful present read. -/
structure ReadResult where
  stateId : String
  err : Option String
  image : Option Image
  deriving DecidableEq, Repr

/-- Tail of Read after an image with a non-pending status is at hand
(lines 373-381 plus the success path): `deregistered` clears the state
and succeeds, any other non-available status is a hard error, and
`available` succeeds with the observed image. -/
def readFinish (id : String) (image : Image) : ReadResult :=
  if image.state = ImageStateDeregistered then { stateId := "", err := none, image := none }
  else if image.state ≠ ImageStateAvailable then
    { stateId := id, err := some ("AMI has become " ++ image.state), image := none }
  else { stateId := id, err := none, image := some image }

/-- The `resourceAwsAmiRead` logic (lines 316-441) over one
`DescribeImages` outcome (the remote answer is constant across the
bounded retry, so a single outcome determines the loop): a not-found
error on a non-new resource clears the state and succeeds; any other
error (including not-found exhausting the new-resource retry budget) is
wrapped; a response without exactly one image clears the state and
succeeds; a `pending` image is waited on via `waitRes` (the outcome of
`resourceAwsAmiWaitForAvailable`); the final status is settled by
`readFinish`. -/
def resourceAwsAmiRead (id : String) (isNew : Bool)
    (describeRes : Except AwsError (List Image)) (waitRes : Except String Image) :
    ReadResult :=
  match describeRes with
  | Except.error e =>
    if e.code = "InvalidAMIID.NotFound" ∧ isNew = false then
      { stateId := "", err := none, image := none }
    else
      { stateId := id, err := some ("Unable to find AMI after retries: " ++ e.message)
        image := none }
  | Except.ok imgs =>
    match imgs with
    | [image] =>
      if image.state = ImageStatePending then
        match waitRes with
        | Except.error msg => { stateId := id, err := some msg, image := none }
        | Except.ok image2 => readFinish id image2
      else readFinish id image
    | _ => { stateId := "", err := none, image := none }

/-- Answers of the remote system consumed by one Create invocation:
the `RegisterImage` outcome (the returned image id on success), the
`Ec2CreateTags` outcome, the availability-wait outcome, and the describe
plus in-read wait outcomes consumed by the final delegated Read. -/
structure CreateEnv where
  registerResult : Except AwsError String
  createTagsError : Option AwsError
  waitError : Option String
  readDescribe : Except AwsError (List Image)
  readWait : Except String Image
  deriving Repr

/-- Result of a Create: the remote calls issued in order, the tracked
identifier after the call, and the returned error. -/
structure CreateResult where
  trace : List Action
  stateId : Option String
  err : Option String
  deriving DecidableEq, Repr

/-- Tail of Create after the identifier is recorded and tags are applied
(lines 308-313): wait for availability, then delegate to Read (as a new
resource). -/
def createWaitAndRead (id : String) (t : List Action) (env : CreateEnv) : CreateResult :=
  match env.waitError with
  | some msg =>
    { trace := t ++ [Action.waitForAvailable id], stateId := some id
      err := some ("Error waiting for AMI (" ++ id ++ ") to be ready: " ++ msg) }
  | none =>
    let r := resourceAwsAmiRead id true env.readDescribe env.readWait
    { trace := t ++ [Action.waitForAvailable id, Action.read id]
      stateId := if r.stateId = "" then none else some r.stateId
      err := r.err }

/-- The `resourceAwsAmiCreate` logic (lines 232-314): build the request
(failing before any remote call on a configuration error), issue
`RegisterImage`, record the returned identifier immediately, apply the
declared tags when non-empty, then wait for availability and delegate to
Read; an error at any step returns at once with the trace so far. -/
def resourceAwsAmiCreate (cfg : DesiredConfig) (env : CreateEnv) : CreateResult :=
  match buildRegisterImageRequest cfg with
  | Except.error msg => { trace := [], stateId := none, err := some msg }
  | Except.ok req =>
    match env.registerResult with
    | Except.error e =>
      { trace := [Action.registerImage req], stateId := none, err := some e.message }
    | Except.ok id =>
      if cfg.tags ≠ [] then
        match env.createTagsError with
        | some e =>
          { trace := [Action.registerImage req, Action.createTags id cfg.tags]
            stateId := some id
            err := some ("error adding tags: " ++ e.message) }
        | none =>
          createWaitAndRead id [Action.registerImage req, Action.createTags id cfg.tags] env
      else createWaitAndRead id [Action.registerImage req] env

/-- Modelled from the spec: the tag-diff removals of the Tag Synchronizer
(`keyvaluetags.Ec2UpdateTags`, not under src/) — the keys present in the
old tag map but absent from the new one. -/
def tagDiffRemoved (o n : List (String × String)) : List String :=
  (o.filter (fun p => ¬ n.any (fun q => q.1 = p.1))).map (fun p => p.1)

/-- Modelled from the spec: the tag-diff additions/overwrites of the Tag
Synchronizer — the pairs of the new tag map that are absent from or
changed relative to the old one. -/
def tagDiffUpdated (o n : List (String × String)) : List (String × String) :=
  n.filter (fun q => ¬ o.any (fun p => p.1 = q.1 ∧ p.2 = q.2))

/-- Modelled from the spec: `keyvaluetags.Ec2UpdateTags` (not under src/)
issues one remove-call for the removed keys when non-empty and one
apply-call for the added/overwritten pairs when non-empty — the minimal
add/remove calls implied by the tag diff. -/
def ec2UpdateTags (id : String) (o n : List (String × String)) : List Action :=
  (if tagDiffRemoved o n ≠ [] then [Action.removeTags id (tagDiffRemoved o n)] else [])
    ++ (if tagDiffUpdated o n ≠ [] then [Action.applyTags id (tagDiffUpdated o n)] else [])

/-- Answers of the remote system consumed by one Update invocation. -/
structure UpdateEnv where
  updateTagsError : Option AwsError
  modifyError : Option AwsError
  readDescribe : Except AwsError (List Image)
  readWait : Except String Image
  deriving Repr

/-- Result of an Update: the remote calls issued in order and the
returned error. -/
structure UpdateResult where
  trace : List Action
  err : Option String
  deriving DecidableEq, Repr

/-- Tail of Update: the final delegation to Read (line 466), as a
non-new resource. -/
def resourceAwsAmiUpdateRead (id : String) (t : List Action) (env : UpdateEnv) :
    UpdateResult :=
  { trace := t ++ [Action.read id]
    err := (resourceAwsAmiRead id false env.readDescribe env.readWait).err }

/-- Middle of Update (lines 454-464): `ModifyImageAttribute` is issued
whenever the current description value is non-empty (the previous
description value is never consulted), then Read runs. -/
def resourceAwsAmiUpdateAfterTags (id description : String) (t : List Action)
    (env : UpdateEnv) : UpdateResult :=
  if description ≠ "" then
    match env.modifyError with
    | some e =>
      { trace := t ++ [Action.modifyImageAttribute id description], err := some e.message }
    | none =>
      resourceAwsAmiUpdateRead id (t ++ [Action.modifyImageAttribute id description]) env
  else resourceAwsAmiUpdateRead id t env

/-- The `resourceAwsAmiUpdate` logic (lines 443-467) over the fields of
`d` it consumes: the identifier, the old and new description values
(`d.Get("description")` is the new one; the body never reads
`oldDescription`, mirroring the Go code, which the claim about unchanged
descriptions quantifies over), and the old and new tag maps
(`d.HasChange("tags")` holds exactly when they differ). -/
def resourceAwsAmiUpdate (id oldDescription description : String)
    (oldTags newTags : List (String × String)) (env : UpdateEnv) : UpdateResult :=
  let tagActions := if oldTags ≠ newTags then ec2UpdateTags id oldTags newTags else []
  match (if oldTags ≠ newTags then env.updateTagsError else none) with
  | some e =>
    { trace := tagActions
      err := some ("error updating AMI (" ++ id ++ ") tags: " ++ e.message) }
  | none => resourceAwsAmiUpdateAfterTags id description tagActions env

/-- Answers of the remote system consumed by one Delete invocation. -/
structure DeleteEnv where
  deregisterError : Option AwsError
  deleteSnapshotError : String → Option AwsError
  waitDestroyError : Option String

/-- Result of a Delete: the remote calls issued in order, the tracked
identifier after the call (Delete never rewrites it), and the returned
error. -/
structure DeleteResult where
  trace : List Action
  stateId : String
  err : Option String
  deriving DecidableEq, Repr

/-- The snapshot ids the Delete cascade iterates: every `ebs_block_device`
entry whose `snapshot_id` is non-empty (lines 486-489). -/
def snapshotIdsToDelete (ebs : List EbsMapping) : List String :=
  (ebs.map (fun e => e.snapshotId)).filter (fun s => s ≠ "")

/-- The per-snapshot error map built by the cascade loop (lines 483-496):
keyed by snapshot id (duplicate ids occupy one key, as in the Go map),
holding the ids whose `DeleteSnapshot` call failed. -/
def collectSnapshotErrs (deleteErr : String → Option AwsError) (snaps : List String) :
    List (String × AwsError) :=
  snaps.dedup.filterMap (fun s => (deleteErr s).map (fun e => (s, e)))

/-- The aggregated cascade error message (lines 498-504): a header line,
one line per failed snapshot id, and the manual-cleanup warning, joined
with newlines. -/
def snapshotErrsMessage (errs : List (String × AwsError)) : String :=
  String.intercalate "\n"
    (["Errors while deleting associated EBS snapshots:"]
      ++ errs.map (fun p => p.1 ++ ": " ++ p.2.message)
      ++ ["These are no longer managed by Terraform and must be deleted manually."])

/-- The `resourceAwsAmiDelete` logic (lines 469-514): deregister the
image, returning its error at once; when `manage_ebs_snapshots` is set,
attempt every non-empty snapshot id independently and, if any failed,
return the aggregated error; otherwise wait for the `destroyed` status
and return its (wrapped) outcome. -/
def resourceAwsAmiDelete (id : String) (manage : Bool) (ebs : List EbsMapping)
    (env : DeleteEnv) : DeleteResult :=
  match env.deregisterError with
  | some e => { trace := [Action.deregisterImage id], stateId := id, err := some e.message }
  | none =>
    let snaps := if manage then snapshotIdsToDelete ebs else []
    let t := Action.deregisterImage id :: snaps.map Action.deleteSnapshot
    let errs := collectSnapshotErrs env.deleteSnapshotError snaps
    if errs ≠ [] then { trace := t, stateId := id, err := some (snapshotErrsMessage errs) }
    else
      match env.waitDestroyError with
      | some msg =>
        { trace := t ++ [Action.waitForDestroy id], stateId := id
          err := some ("Error waiting for AMI (" ++ id ++ ") to be deleted: " ++ msg) }
      | none => { trace := t ++ [Action.waitForDestroy id], stateId := id, err := none }

/-- The `Set` hash key of one `ebs_block_device` entry (lines 136-142):
the buffer `device_name` and `snapshot_id` each followed by `-`, which is
then hashed by `hashcode.String`. -/
def ebsBlockDeviceSetKey (e : EbsMapping) : String :=
  e.deviceName ++ "-" ++ e.snapshotId ++ "-"

/-- The `Set` hash key of one `ephemeral_block_device` entry (lines
167-173): the buffer `device_name` and `virtual_name` each followed by
`-`. -/
def ephemeralBlockDeviceSetKey (e : EphemeralMapping) : String :=
  e.deviceName ++ "-" ++ e.virtualName ++ "-"

/-- Modelled from the spec: set-element identity of the schema
(`schema.Set` and `hashcode.String` of `aws/internal/hashcode`, neither
under src/) — two entries denote the same set element exactly when the
Set function of the resource computes the same key for them. -/
def sameEbsSetElement (a b : EbsMapping) : Prop :=
  ebsBlockDeviceSetKey a = ebsBlockDeviceSetKey b

/-- Modelled from the spec: set-element identity for the ephemeral
collection, by equality of the key of the Set function. -/
def sameEphemeralSetElement (a b : EphemeralMapping) : Prop :=
  ephemeralBlockDeviceSetKey a = ephemeralBlockDeviceSetKey b

instance (a b : EbsMapping) : Decidable (sameEbsSetElement a b) := by
  unfold sameEbsSetElement; infer_instance

instance (a b : EphemeralMapping) : Decidable (sameEphemeralSetElement a b) := by
  unfold sameEphemeralSetElement; infer_instance

/-- Concrete available image used by the example environments. -/
def exImageAvailable : Image := { imageId := "ami-12345678", state := "available" }

/-- Concrete configuration without block devices and with one tag. -/
def exCfgNoDevices : DesiredConfig :=
  { name := "tf-testing-ami"
    description := ""
    architecture := "x86_64"
    imageLocation := ""
    rootDeviceName := ""
    sriovNetSupport := "simple"
    virtualizationType := "hvm"
    enaSupport := false
    kernelId := ""
    ramdiskId := ""
    ebsBlockDevices := []
    ephemeralBlockDevices := []
    tags := [("env", "dev")]
    manageEbsSnapshots := false }

/-- The request `exCfgNoDevices` translates to. -/
def exReqNoDevices : RegisterImageInput :=
  { name := "tf-testing-ami"
    description := ""
    architecture := "x86_64"
    imageLocation := ""
    rootDeviceName := ""
    sriovNetSupport := "simple"
    virtualizationType := "hvm"
    enaSupport := false
    kernelId := none
    ramdiskId := none
    blockDeviceMappings := [] }

/-- An ebs entry declaring both a snapshot and encryption — the
configuration the mutual-exclusion invariant rejects. -/
def exEbsConflict : EbsMapping :=
  { deviceName := "/dev/sda1"
    deleteOnTermination := true
    encrypted := true
    iops := 0
    snapshotId := "snap-0123456789abcdef0"
    volumeSize := 8
    volumeType := "gp2" }

/-- A well-formed ebs entry with a declared volume size and unset iops. -/
def exEbsPlain : EbsMapping :=
  { deviceName := "/dev/sda1"
    deleteOnTermination := true
    encrypted := false
    iops := 0
    snapshotId := ""
    volumeSize := 8
    volumeType := "gp2" }

/-- A well-formed ebs entry referencing snapshot `snap-1`. -/
def exEbsS1 : EbsMapping :=
  { deviceName := "/dev/sdb"
    deleteOnTermination := true
    encrypted := false
    iops := 0
    snapshotId := "snap-1"
    volumeSize := 8
    volumeType := "gp2" }

/-- A well-formed ebs entry referencing snapshot `snap-2`. -/
def exEbsS2 : EbsMapping :=
  { deviceName := "/dev/sdc"
    deleteOnTermination := true
    encrypted := false
    iops := 0
    snapshotId := "snap-2"
    volumeSize := 8
    volumeType := "gp2" }

/-- A well-formed ebs entry referencing snapshot `snap-3`. -/
def exEbsS3 : EbsMapping :=
  { deviceName := "/dev/sdd"
    deleteOnTermination := true
    encrypted := false
    iops := 0
    snapshotId := "snap-3"
    volumeSize := 8
    volumeType := "gp2" }

/-- A configuration containing the conflicting ebs entry. -/
def exCfgConflict : DesiredConfig :=
  { exCfgNoDevices with ebsBlockDevices := [exEbsConflict] }

/-- A configuration with one plain ebs entry and no tags. -/
def exCfgPlainDev : DesiredConfig :=
  { exCfgNoDevices with ebsBlockDevices := [exEbsPlain], tags := [] }

/-- The request `exCfgPlainDev` translates to: `volume_size` present,
`iops` absent. -/
def exReqPlainDev : RegisterImageInput :=
  { exReqNoDevices with
    blockDeviceMappings :=
      [{ deviceName := "/dev/sda1"
         ebs := some
           { deleteOnTermination := true
             volumeType := "gp2"
             iops := none
             volumeSize := some 8
             snapshotId := none
             encrypted := none }
         virtualName := none }] }

/-- A create environment in which every remote call succeeds. -/
def exCreateEnvOk : CreateEnv :=
  { registerResult := Except.ok "ami-12345678"
    createTagsError := none
    waitError := none
    readDescribe := Except.ok [exImageAvailable]
    readWait := Except.ok exImageAvailable }

/-- A delete environment in which deregistration succeeds, deleting
`snap-2` fails and every other call succeeds. -/
def exDeleteEnvS2Fails : DeleteEnv :=
  { deregisterError := none
    deleteSnapshotError := fun s =>
      if s = "snap-2" then some { code := "SnapshotInUse", message := "snapshot is in use" }
      else none
    waitDestroyError := none }

/-- A delete environment in which every remote call succeeds. -/
def exDeleteEnvOk : DeleteEnv :=
  { deregisterError := none
    deleteSnapshotError := fun _ => none
    waitDestroyError := none }

/-- A delete environment in which deregistration itself fails. -/
def exDeleteEnvDeregFails : DeleteEnv :=
  { deregisterError := some { code := "AuthFailure", message := "not authorized" }
    deleteSnapshotError := fun _ => none
    waitDestroyError := none }

/-- An update environment in which every remote call succeeds. -/
def exUpdateEnvOk : UpdateEnv :=
  { updateTagsError := none
    modifyError := none
    readDescribe := Except.ok [exImageAvailable]
    readWait := Except.ok exImageAvailable }

/-!
Theorems.  Helper lemmas come first; each claim is settled by one
designated theorem (with a witness when it has hypotheses, and a
counterexample when the claim as stated fails).
-/

theorem ebsDevToMapping_conflict (e : EbsMapping) (hs : e.snapshotId ≠ "")
    (he : e.encrypted = true) :
    ebsDevToMapping e
      = Except.error "can\x27t set both \x27snapshot_id\x27 and \x27encrypted\x27" := by
  simp [ebsDevToMapping, hs, he]

theorem ebsDevToMapping_ok_of_no_conflict (e : EbsMapping)
    (h : ¬ (e.snapshotId ≠ "" ∧ e.encrypted = true)) :
    ∃ m, ebsDevToMapping e = Except.ok m := by
  unfold ebsDevToMapping
  by_cases hs : e.snapshotId = ""
  · by_cases he : e.encrypted <;> simp [hs, he]
  · have he : e.encrypted = false := by
      rcases Bool.eq_false_or_eq_true e.encrypted with h1 | h1
      · exact absurd ⟨hs, h1⟩ h
      · exact h1
    simp [hs, he]

theorem translateEbsDevs_conflict {l : List EbsMapping}
    (h : ∃ e ∈ l, e.snapshotId ≠ "" ∧ e.encrypted = true) :
    translateEbsDevs l
      = Except.error "can\x27t set both \x27snapshot_id\x27 and \x27encrypted\x27" := by
  induction l with
  | nil => simp at h
  | cons a t ih =>
    rcases h with ⟨e, he, hs, henc⟩
    rcases List.mem_cons.mp he with rfl | hmem
    · simp [translateEbsDevs, ebsDevToMapping_conflict e hs henc]
    · by_cases hca : a.snapshotId ≠ "" ∧ a.encrypted = true
      · simp [translateEbsDevs, ebsDevToMapping_conflict a hca.1 hca.2]
      · obtain ⟨m, hm⟩ := ebsDevToMapping_ok_of_no_conflict a hca
        simp [translateEbsDevs, hm, ih ⟨e, hmem, hs, henc⟩]

theorem buildRegisterImageRequest_conflict {cfg : DesiredConfig}
    (h : ∃ e ∈ cfg.ebsBlockDevices, e.snapshotId ≠ "" ∧ e.encrypted = true) :
    buildRegisterImageRequest cfg
      = Except.error "can\x27t set both \x27snapshot_id\x27 and \x27encrypted\x27" := by
  simp [buildRegisterImageRequest, translateEbsDevs_conflict h]

/-- C1: for every configuration in which some `ebs_block_device` entry has
a non-empty `snapshot_id` together with `encrypted=true`, Create fails
with the snapshot/encrypted configuration error before any remote API call: the call trace is empty (no
RegisterImage, no tag application, no polling) and no identifier is
recorded. -/
theorem create_conflict_fails_before_any_remote_call
    (cfg : DesiredConfig) (env : CreateEnv)
    (h : ∃ e ∈ cfg.ebsBlockDevices, e.snapshotId ≠ "" ∧ e.encrypted = true) :
    resourceAwsAmiCreate cfg env
      = { trace := []
          stateId := none
          err := some "can\x27t set both \x27snapshot_id\x27 and \x27encrypted\x27" } := by
  simp [resourceAwsAmiCreate, buildRegisterImageRequest_conflict h]

/-- Witness for C1 at the concrete conflicting configuration. -/
theorem create_conflict_fails_before_any_remote_call_witness :
    resourceAwsAmiCreate exCfgConflict exCreateEnvOk
      = { trace := []
          stateId := none
          err := some "can\x27t set both \x27snapshot_id\x27 and \x27encrypted\x27" } :=
  create_conflict_fails_before_any_remote_call exCfgConflict exCreateEnvOk
    ⟨exEbsConflict, by decide⟩

/-- C10: when the deregistration call fails, Delete returns that error
immediately and has no further effects: the trace holds only the
deregister call (no snapshot deletion even with the managed flag set, no
destroyed-wait) and the tracked identifier is unchanged. -/
theorem delete_deregister_error_short_circuits
    (id : String) (manage : Bool) (ebs : List EbsMapping) (env : DeleteEnv)
    (e : AwsError) (h : env.deregisterError = some e) :
    resourceAwsAmiDelete id manage ebs env
      = { trace := [Action.deregisterImage id], stateId := id, err := some e.message } := by
  simp [resourceAwsAmiDelete, h]

/-- Witness for C10 at a concrete failing deregistration. -/
theorem delete_deregister_error_short_circuits_witness :
    resourceAwsAmiDelete "ami-12345678" true [exEbsS1] exDeleteEnvDeregFails
      = { trace := [Action.deregisterImage "ami-12345678"]
          stateId := "ami-12345678"
          err := some "not authorized" } :=
  delete_deregister_error_short_circuits "ami-12345678" true [exEbsS1]
    exDeleteEnvDeregFails { code := "AuthFailure", message := "not authorized" } rfl

theorem mem_collectSnapshotErrs_fst (f : String → Option AwsError) (snaps : List String)
    (s : String) :
    s ∈ (collectSnapshotErrs f snaps).map Prod.fst ↔ s ∈ snaps ∧ f s ≠ none := by
  simp only [collectSnapshotErrs, List.mem_map, List.mem_filterMap, List.mem_dedup,
    Option.map_eq_some']
  constructor
  · rintro ⟨⟨a, ea⟩, ⟨a2, ha2, e, hfe, heq⟩, hfst⟩
    cases heq
    cases hfst
    exact ⟨ha2, by simp [hfe]⟩
  · rintro ⟨hmem, hne⟩
    rcases Option.ne_none_iff_exists'.mp hne with ⟨e, hfe⟩
    exact ⟨(s, e), ⟨s, hmem, e, hfe, rfl⟩, rfl⟩

/-- C4: with the managed-snapshot flag set and deregistration successful,
Delete attempts a snapshot deletion for every entry with a non-empty
snapshot id (a failure does not prevent the remaining attempts), and when
any attempt failed it returns the single aggregated message over exactly
the failed snapshot ids together with the manual-cleanup warning, leaving
the deregistration in place and the tracked identifier unchanged. -/
theorem delete_cascade_attempts_all_and_aggregates
    (id : String) (ebs : List EbsMapping) (env : DeleteEnv)
    (hder : env.deregisterError = none) :
    (∀ s, Action.deleteSnapshot s ∈ (resourceAwsAmiDelete id true ebs env).trace
        ↔ s ∈ snapshotIdsToDelete ebs)
    ∧ (collectSnapshotErrs env.deleteSnapshotError (snapshotIdsToDelete ebs) ≠ [] →
        (resourceAwsAmiDelete id true ebs env).err
          = some (snapshotErrsMessage
              (collectSnapshotErrs env.deleteSnapshotError (snapshotIdsToDelete ebs)))
        ∧ ∀ s,
            s ∈ (collectSnapshotErrs env.deleteSnapshotError
                  (snapshotIdsToDelete ebs)).map Prod.fst
              ↔ s ∈ snapshotIdsToDelete ebs ∧ env.deleteSnapshotError s ≠ none)
    ∧ (resourceAwsAmiDelete id true ebs env).trace.head? = some (Action.deregisterImage id)
    ∧ (resourceAwsAmiDelete id true ebs env).stateId = id := by
  by_cases herr : collectSnapshotErrs env.deleteSnapshotError (snapshotIdsToDelete ebs) = []
  · refine ⟨?_, by simp [herr], ?_, ?_⟩ <;> cases h : env.waitDestroyError <;>
      simp [resourceAwsAmiDelete, hder, herr, h, List.mem_cons, List.mem_map,
        List.mem_append]
  · refine ⟨?_, fun _ => ⟨?_, fun s => mem_collectSnapshotErrs_fst _ _ s⟩, ?_, ?_⟩ <;>
      simp [resourceAwsAmiDelete, hder, herr, List.mem_cons, List.mem_map]

/-- Witness for C4: three snapshots with the middle deletion failing —
all three are attempted, and the aggregated error names `snap-2`. -/
theorem delete_cascade_attempts_all_and_aggregates_witness :
    (Action.deleteSnapshot "snap-1"
        ∈ (resourceAwsAmiDelete "ami-12345678" true [exEbsS1, exEbsS2, exEbsS3]
            exDeleteEnvS2Fails).trace
      ∧ Action.deleteSnapshot "snap-3"
        ∈ (resourceAwsAmiDelete "ami-12345678" true [exEbsS1, exEbsS2, exEbsS3]
            exDeleteEnvS2Fails).trace)
    ∧ ("snap-2"
        ∈ (collectSnapshotErrs exDeleteEnvS2Fails.deleteSnapshotError
            (snapshotIdsToDelete [exEbsS1, exEbsS2, exEbsS3])).map Prod.fst
      ∧ "snap-1"
        ∉ (collectSnapshotErrs exDeleteEnvS2Fails.deleteSnapshotError
            (snapshotIdsToDelete [exEbsS1, exEbsS2, exEbsS3])).map Prod.fst) := by
  have h := delete_cascade_attempts_all_and_aggregates "ami-12345678"
    [exEbsS1, exEbsS2, exEbsS3] exDeleteEnvS2Fails rfl
  refine ⟨⟨(h.1 "snap-1").mpr (by decide), (h.1 "snap-3").mpr (by decide)⟩, ?_, ?_⟩
  · exact ((h.2.1 (by decide)).2 "snap-2").mpr (by decide)
  · intro hmem
    exact absurd (((h.2.1 (by decide)).2 "snap-1").mp hmem).2 (by decide)

/-- C2 counterexample: a Delete in which deregistration succeeded and one
cascade snapshot deletion failed returns the aggregated error without
performing the destroyed-wait — refuting the claim that the wait is
performed even when the aggregated snapshot-deletion error is returned. -/
theorem delete_snapshot_error_skips_destroy_wait_cex :
    (resourceAwsAmiDelete "ami-12345678" true [exEbsS1, exEbsS2, exEbsS3]
        exDeleteEnvS2Fails).err.isSome = true
    ∧ Action.waitForDestroy "ami-12345678"
        ∉ (resourceAwsAmiDelete "ami-12345678" true [exEbsS1, exEbsS2, exEbsS3]
            exDeleteEnvS2Fails).trace := by
  decide

/-- C2 (amended): when deregistration succeeded, Delete performs the
destroyed-wait exactly when the snapshot cascade produced no errors; when
the aggregated snapshot-deletion error is returned, Delete returns it
immediately without waiting for the destroyed status. -/
theorem delete_destroy_wait_iff_no_snapshot_errors
    (id : String) (manage : Bool) (ebs : List EbsMapping) (env : DeleteEnv)
    (hder : env.deregisterError = none) :
    (collectSnapshotErrs env.deleteSnapshotError
        (if manage then snapshotIdsToDelete ebs else []) = [] →
      Action.waitForDestroy id ∈ (resourceAwsAmiDelete id manage ebs env).trace)
    ∧ (collectSnapshotErrs env.deleteSnapshotError
        (if manage then snapshotIdsToDelete ebs else []) ≠ [] →
      Action.waitForDestroy id ∉ (resourceAwsAmiDelete id manage ebs env).trace
      ∧ (resourceAwsAmiDelete id manage ebs env).err
          = some (snapshotErrsMessage (collectSnapshotErrs env.deleteSnapshotError
              (if manage then snapshotIdsToDelete ebs else [])))) := by
  by_cases herr : collectSnapshotErrs env.deleteSnapshotError
      (if manage then snapshotIdsToDelete ebs else []) = []
  · refine ⟨fun _ => ?_, by simp [herr]⟩
    cases h : env.waitDestroyError <;>
      simp [resourceAwsAmiDelete, hder, herr, h, List.mem_append]
  · refine ⟨fun h => absurd h herr, fun _ => ⟨?_, ?_⟩⟩ <;>
      simp [resourceAwsAmiDelete, hder, herr, List.mem_cons, List.mem_map]

/-- Witness for C2 (amended): with every call succeeding the
destroyed-wait is performed. -/
theorem delete_destroy_wait_iff_no_snapshot_errors_witness :
    Action.waitForDestroy "ami-12345678"
      ∈ (resourceAwsAmiDelete "ami-12345678" true [exEbsS1, exEbsS2, exEbsS3]
          exDeleteEnvOk).trace :=
  (delete_destroy_wait_iff_no_snapshot_errors "ami-12345678" true
    [exEbsS1, exEbsS2, exEbsS3] exDeleteEnvOk rfl).1 (by decide)

/-- C3 counterexample: a `not found` probe error during the availability
wait yields the synthetic `destroyed` status — not `pending` — and
`destroyed` is outside both the pending and the target statuses of the
availability wait, so polling does not continue; the refresh function has
no notion of the resource being new, refuting the claim that a new
not-found answer for a new resource keeps the status pending. -/
theorem availability_wait_not_found_cex :
    AMIStateRefreshFunc none
        (some { code := "InvalidAMIID.NotFound", message := "image not found" })
      = Except.ok (none, "destroyed")
    ∧ "destroyed" ∉ amiAvailablePendingStates
    ∧ classifyStatus amiAvailablePendingStates amiAvailableTargetStates "destroyed"
        = WaitKind.unexpected :=
  ⟨rfl, by decide, by decide⟩

/-- C3 (amended): for every probe outcome whose error is classified
`not found`, `AMIStateRefreshFunc` reports the synthetic terminal
`destroyed` status unconditionally — it never consults whether the
resource is new; in the availability wait this status lies outside both
pending and target, so the wait fails rather than continuing, while in
the destroy wait it is the target.  (The transient treatment of
not-found for new resources exists only in the bounded retry of Read.) -/
theorem refresh_not_found_promoted_to_destroyed
    (resp : Option (List Image)) (e : AwsError)
    (h : e.code = "InvalidAMIID.NotFound") :
    AMIStateRefreshFunc resp (some e) = Except.ok (none, "destroyed")
    ∧ classifyStatus amiAvailablePendingStates amiAvailableTargetStates "destroyed"
        = WaitKind.unexpected
    ∧ classifyStatus amiDestroyPendingStates amiDestroyTargetStates "destroyed"
        = WaitKind.done := by
  refine ⟨by simp [AMIStateRefreshFunc, h], by decide, by decide⟩

/-- Witness for C3 (amended) at a concrete not-found probe outcome. -/
theorem refresh_not_found_promoted_to_destroyed_witness :
    AMIStateRefreshFunc (some [exImageAvailable])
        (some { code := "InvalidAMIID.NotFound", message := "image not found" })
      = Except.ok (none, "destroyed")
    ∧ classifyStatus amiAvailablePendingStates amiAvailableTargetStates "destroyed"
        = WaitKind.unexpected
    ∧ classifyStatus amiDestroyPendingStates amiDestroyTargetStates "destroyed"
        = WaitKind.done :=
  refresh_not_found_promoted_to_destroyed (some [exImageAvailable])
    { code := "InvalidAMIID.NotFound", message := "image not found" } rfl

/-- C7: Read treats the resource as absent and succeeds — clearing the
tracked identifier and returning no error — both when the describe call
reports `not found` for a non-new resource and when the remote status is
the `deregistered` terminal state. -/
theorem read_absent_clears_state_without_error
    (id : String) (isNew : Bool) (e : AwsError) (img : Image)
    (w w2 : Except String Image)
    (hcode : e.code = "InvalidAMIID.NotFound") (hst : img.state = "deregistered") :
    resourceAwsAmiRead id false (Except.error e) w
      = { stateId := "", err := none, image := none }
    ∧ resourceAwsAmiRead id isNew (Except.ok [img]) w2
      = { stateId := "", err := none, image := none } := by
  constructor
  · simp [resourceAwsAmiRead, hcode]
  · simp [resourceAwsAmiRead, readFinish, hst, ImageStatePending, ImageStateDeregistered]

/-- Witness for C7 at a concrete not-found error and a concrete
deregistered image. -/
theorem read_absent_clears_state_without_error_witness :
    resourceAwsAmiRead "ami-12345678" false
        (Except.error { code := "InvalidAMIID.NotFound", message := "image not found" })
        (Except.ok exImageAvailable)
      = { stateId := "", err := none, image := none }
    ∧ resourceAwsAmiRead "ami-12345678" true
        (Except.ok [{ imageId := "ami-12345678", state := "deregistered" }])
        (Except.ok exImageAvailable)
      = { stateId := "", err := none, image := none } :=
  read_absent_clears_state_without_error "ami-12345678" true
    { code := "InvalidAMIID.NotFound", message := "image not found" }
    { imageId := "ami-12345678", state := "deregistered" }
    (Except.ok exImageAvailable) (Except.ok exImageAvailable) rfl rfl

theorem modify_not_mem_ec2UpdateTags (id d : String) (o n : List (String × String)) :
    Action.modifyImageAttribute id d ∉ ec2UpdateTags id o n := by
  unfold ec2UpdateTags
  by_cases h1 : tagDiffRemoved o n = [] <;> by_cases h2 : tagDiffUpdated o n = [] <;>
    simp [h1, h2]

/-- C5 counterexample: an Update changing only tags, with the description
unchanged at the non-empty value `some description`, still issues the
attribute-modify call for the description — refuting the claim that no
such call is issued when the description is unchanged from its previous
value. -/
theorem update_unchanged_description_modify_cex :
    Action.modifyImageAttribute "ami-12345678" "some description"
      ∈ (resourceAwsAmiUpdate "ami-12345678" "some description" "some description"
          [("env", "dev")] [("env", "prod"), ("team", "x")] exUpdateEnvOk).trace := by
  decide

/-- C5 (amended): for every Update in which only tags change (old and new
description values equal) and the remote calls succeed, the trace is
exactly the tag add/remove calls implied by the tag diff, then the
attribute-modify call iff the description value is non-empty, then the
final Read — so the modify call is suppressed only by an empty
description, and is issued even for an unchanged non-empty one. -/
theorem update_tags_only_modify_iff_description_nonempty
    (id d : String) (o n : List (String × String)) (env : UpdateEnv)
    (hch : o ≠ n) (ht : env.updateTagsError = none) (hm : env.modifyError = none) :
    (resourceAwsAmiUpdate id d d o n env).trace
      = ec2UpdateTags id o n
        ++ (if d = "" then [] else [Action.modifyImageAttribute id d])
        ++ [Action.read id]
    ∧ (Action.modifyImageAttribute id d ∈ (resourceAwsAmiUpdate id d d o n env).trace
        ↔ d ≠ "") := by
  have htr : (resourceAwsAmiUpdate id d d o n env).trace
      = ec2UpdateTags id o n
        ++ (if d = "" then [] else [Action.modifyImageAttribute id d])
        ++ [Action.read id] := by
    by_cases hd : d = "" <;>
      simp [resourceAwsAmiUpdate, resourceAwsAmiUpdateAfterTags, resourceAwsAmiUpdateRead,
        hch, ht, hm, hd]
  refine ⟨htr, ?_⟩
  rw [htr]
  by_cases hd : d = "" <;>
    simp [hd, List.mem_append, modify_not_mem_ec2UpdateTags]

/-- Witness for C5 (amended) at the tag example of the spec with an empty
description: one apply-call, zero remove-calls, no modify call. -/
theorem update_tags_only_modify_iff_description_nonempty_witness :
    (resourceAwsAmiUpdate "ami-12345678" "" "" [("env", "dev")]
        [("env", "prod"), ("team", "x")] exUpdateEnvOk).trace
      = ec2UpdateTags "ami-12345678" [("env", "dev")] [("env", "prod"), ("team", "x")]
        ++ (if ("" : String) = "" then []
            else [Action.modifyImageAttribute "ami-12345678" ""])
        ++ [Action.read "ami-12345678"]
    ∧ (Action.modifyImageAttribute "ami-12345678" ""
        ∈ (resourceAwsAmiUpdate "ami-12345678" "" "" [("env", "dev")]
            [("env", "prod"), ("team", "x")] exUpdateEnvOk).trace
        ↔ ("" : String) ≠ "") :=
  update_tags_only_modify_iff_description_nonempty "ami-12345678" ""
    [("env", "dev")] [("env", "prod"), ("team", "x")] exUpdateEnvOk (by decide) rfl rfl

/-- C9 counterexample: two ebs entries with the same device name but
different snapshot ids are distinct set elements (the Set function of
the resource computes different keys for them), refuting the claim that
entries are identified as the same element iff their device names are
equal. -/
theorem ebs_set_identity_not_device_name_alone_cex :
    exEbsS1.deviceName
        = ({ exEbsS1 with snapshotId := "snap-9" } : EbsMapping).deviceName
    ∧ ¬ sameEbsSetElement exEbsS1 { exEbsS1 with snapshotId := "snap-9" } := by
  decide

/-- C9 (amended): set-element identity of the nested block-device
collections is keyed by the pair written into the Set hash buffer —
device name and snapshot id for ebs entries, device name and virtual name
for ephemeral entries: entries agreeing on that pair are the same element
independent of their remaining fields and declaration order, while equal
device names alone do not suffice. -/
theorem set_identity_keyed_by_device_and_second_field
    (a b : EbsMapping) (c d : EphemeralMapping)
    (hd : a.deviceName = b.deviceName) (hs : a.snapshotId = b.snapshotId)
    (hd2 : c.deviceName = d.deviceName) (hv : c.virtualName = d.virtualName) :
    sameEbsSetElement a b ∧ sameEphemeralSetElement c d := by
  constructor
  · unfold sameEbsSetElement ebsBlockDeviceSetKey
    rw [hd, hs]
  · unfold sameEphemeralSetElement ephemeralBlockDeviceSetKey
    rw [hd2, hv]

/-- Witness for C9 (amended): two ebs entries differing in every field
except device name and snapshot id are the same set element. -/
theorem set_identity_keyed_by_device_and_second_field_witness :
    sameEbsSetElement exEbsS1
        { exEbsS1 with volumeSize := 100, encrypted := true, volumeType := "io1" }
    ∧ sameEphemeralSetElement
        { deviceName := "/dev/sdh", virtualName := "ephemeral0" }
        { deviceName := "/dev/sdh", virtualName := "ephemeral0" } :=
  set_identity_keyed_by_device_and_second_field exEbsS1
    { exEbsS1 with volumeSize := 100, encrypted := true, volumeType := "io1" }
    { deviceName := "/dev/sdh", virtualName := "ephemeral0" }
    { deviceName := "/dev/sdh", virtualName := "ephemeral0" } rfl rfl rfl rfl

theorem ebsDevToMapping_ok_fields {e : EbsMapping} {m : BlockDeviceMapping}
    (h : ebsDevToMapping e = Except.ok m) :
    m.deviceName = e.deviceName
    ∧ ∃ b, m.ebs = some b
        ∧ b.iops = (if e.iops ≠ 0 then some e.iops else none)
        ∧ b.volumeSize = (if e.volumeSize ≠ 0 then some e.volumeSize else none) := by
  unfold ebsDevToMapping at h
  by_cases hs : e.snapshotId ≠ ""
  · by_cases he : e.encrypted
    · simp [hs, he] at h
    · simp [hs, he] at h
      subst h
      simp
  · by_cases he : e.encrypted <;> simp [hs, he] at h <;> subst h <;> simp

theorem translateEbsDevs_ok_corr :
    ∀ {l : List EbsMapping} {ms : List BlockDeviceMapping},
      translateEbsDevs l = Except.ok ms →
      ms.length = l.length
      ∧ ∀ (i : Nat) (e : EbsMapping), l[i]? = some e →
          ∃ m, ms[i]? = some m ∧ ebsDevToMapping e = Except.ok m := by
  intro l
  induction l with
  | nil =>
    intro ms h
    simp [translateEbsDevs] at h
    subst h
    simp
  | cons a t ih =>
    intro ms h
    cases ha : ebsDevToMapping a with
    | error msg => simp [translateEbsDevs, ha] at h
    | ok m =>
      cases ht : translateEbsDevs t with
      | error msg => simp [translateEbsDevs, ha, ht] at h
      | ok ms2 =>
        simp [translateEbsDevs, ha, ht] at h
        subst h
        obtain ⟨hlen, hcorr⟩ := ih ht
        refine ⟨by simp [hlen], ?_⟩
        intro i e hie
        cases i with
        | zero =>
          simp at hie
          subst hie
          exact ⟨m, by simp, ha⟩
        | succ j =>
          simp at hie ⊢
          exact hcorr j e hie

theorem buildRegisterImageRequest_ok_elim {cfg : DesiredConfig} {req : RegisterImageInput}
    (hb : buildRegisterImageRequest cfg = Except.ok req) :
    ∃ ms, translateEbsDevs cfg.ebsBlockDevices = Except.ok ms
      ∧ req.blockDeviceMappings
          = ms ++ cfg.ephemeralBlockDevices.map ephemeralToMapping := by
  cases ht : translateEbsDevs cfg.ebsBlockDevices with
  | error msg => simp [buildRegisterImageRequest, ht] at hb
  | ok ms =>
    simp [buildRegisterImageRequest, ht] at hb
    subst hb
    exact ⟨ms, rfl, rfl⟩

/-- C8: in a successfully translated create request, the mapping built
from the i-th `ebs_block_device` entry carries the `iops` field iff the
declared iops value is non-zero and the `volume_size` field iff the
declared volume size is non-zero — zero-valued optional numerics are
omitted rather than sent as explicit zeros. -/
theorem register_request_omits_zero_iops_and_volume_size
    (cfg : DesiredConfig) (req : RegisterImageInput) (i : Nat) (e : EbsMapping)
    (hb : buildRegisterImageRequest cfg = Except.ok req)
    (hie : cfg.ebsBlockDevices[i]? = some e) :
    ∃ m b, req.blockDeviceMappings[i]? = some m
      ∧ m.deviceName = e.deviceName
      ∧ m.ebs = some b
      ∧ (b.iops ≠ none ↔ e.iops ≠ 0)
      ∧ (b.volumeSize ≠ none ↔ e.volumeSize ≠ 0) := by
  obtain ⟨ms, ht, hreq⟩ := buildRegisterImageRequest_ok_elim hb
  obtain ⟨hlen, hcorr⟩ := translateEbsDevs_ok_corr ht
  obtain ⟨m, hmi, hok⟩ := hcorr i e hie
  obtain ⟨hdev, b, hebs, hiops, hsize⟩ := ebsDevToMapping_ok_fields hok
  refine ⟨m, b, ?_, hdev, hebs, ?_, ?_⟩
  · have hi : i < ms.length := by
      rcases List.getElem?_eq_some.mp hmi with ⟨hlt, _⟩
      exact hlt
    rw [hreq, List.getElem?_append, if_pos hi]
    exact hmi
  · rw [hiops]
    by_cases hz : e.iops = 0 <;> simp [hz]
  · rw [hsize]
    by_cases hz : e.volumeSize = 0 <;> simp [hz]

/-- Witness for C8: the end-to-end example entry of the spec (volume size 8,
iops unset) yields a request with `volume_size` present and `iops`
absent. -/
theorem register_request_omits_zero_iops_and_volume_size_witness :
    ∃ m b, exReqPlainDev.blockDeviceMappings[0]? = some m
      ∧ m.deviceName = exEbsPlain.deviceName
      ∧ m.ebs = some b
      ∧ (b.iops ≠ none ↔ exEbsPlain.iops ≠ 0)
      ∧ (b.volumeSize ≠ none ↔ exEbsPlain.volumeSize ≠ 0) :=
  register_request_omits_zero_iops_and_volume_size exCfgPlainDev exReqPlainDev 0
    exEbsPlain rfl rfl

theorem readFinish_err_imp_stateId (id : String) (img : Image)
    (h : (readFinish id img).err.isSome = true) : (readFinish id img).stateId = id := by
  unfold readFinish at *
  by_cases h1 : img.state = ImageStateDeregistered
  · simp [h1] at h
  · rw [if_neg h1] at h ⊢
    by_cases h2 : img.state = ImageStateAvailable
    · rw [if_neg (not_not_intro h2)] at h
      simp at h
    · rw [if_pos h2] at h ⊢

theorem read_err_imp_stateId (id : String) (isNew : Bool)
    (dr : Except AwsError (List Image)) (w : Except String Image)
    (h : (resourceAwsAmiRead id isNew dr w).err.isSome = true) :
    (resourceAwsAmiRead id isNew dr w).stateId = id := by
  unfold resourceAwsAmiRead at *
  cases dr with
  | error e =>
    by_cases hc : e.code = "InvalidAMIID.NotFound" ∧ isNew = false <;>
      simp [hc] at h ⊢
  | ok imgs =>
    rcases imgs with _ | ⟨img, _ | ⟨img2, rest⟩⟩
    · simp at h
    · by_cases hp : img.state = ImageStatePending
      · simp only [hp, if_pos rfl] at h ⊢
        simp at h ⊢
        cases w with
        | error msg => simp
        | ok imgw =>
          simp at h ⊢
          exact readFinish_err_imp_stateId id imgw h
      · simp [hp] at h ⊢
        exact readFinish_err_imp_stateId id img h
    · simp at h

theorem createWaitAndRead_spec (id : String) (t : List Action) (env : CreateEnv)
    (hid : id ≠ "") :
    ((createWaitAndRead id t env).err.isSome = true →
      (createWaitAndRead id t env).stateId = some id)
    ∧ (env.waitError = none →
        (createWaitAndRead id t env).trace
          = t ++ [Action.waitForAvailable id, Action.read id]
        ∧ (createWaitAndRead id t env).err
            = (resourceAwsAmiRead id true env.readDescribe env.readWait).err)
    ∧ (∀ msg, env.waitError = some msg →
        (createWaitAndRead id t env).trace = t ++ [Action.waitForAvailable id]
        ∧ (createWaitAndRead id t env).stateId = some id) := by
  cases hw : env.waitError with
  | some msg =>
    refine ⟨?_, by simp [hw], ?_⟩ <;> simp [createWaitAndRead, hw]
  | none =>
    have hread := read_err_imp_stateId id true env.readDescribe env.readWait
    refine ⟨?_, fun _ => ⟨?_, ?_⟩, by simp [hw]⟩
    · intro h
      simp only [createWaitAndRead, hw] at h ⊢
      rw [hread h]
      simp [hid]
    · simp [createWaitAndRead, hw]
    · simp [createWaitAndRead, hw]

/-- C6: after a successful RegisterImage returning `id`, Create records
`id` in state immediately: on every error outcome the identifier is still
recorded; the trace starts with the register call, applies the declared
tags (when non-empty) before the availability wait, then waits, then
delegates to Read; an error during tag application aborts before the
wait, and an error during the wait aborts before Read, each leaving the
recorded identifier in place. -/
theorem create_records_id_and_sequences_steps
    (cfg : DesiredConfig) (env : CreateEnv) (req : RegisterImageInput) (id : String)
    (hb : buildRegisterImageRequest cfg = Except.ok req)
    (hr : env.registerResult = Except.ok id) (hid : id ≠ "") :
    ((resourceAwsAmiCreate cfg env).err.isSome = true →
      (resourceAwsAmiCreate cfg env).stateId = some id)
    ∧ (resourceAwsAmiCreate cfg env).trace.head? = some (Action.registerImage req)
    ∧ (env.createTagsError = none → env.waitError = none →
        (resourceAwsAmiCreate cfg env).trace
          = [Action.registerImage req]
            ++ (if cfg.tags = [] then [] else [Action.createTags id cfg.tags])
            ++ [Action.waitForAvailable id, Action.read id]
        ∧ (resourceAwsAmiCreate cfg env).err
            = (resourceAwsAmiRead id true env.readDescribe env.readWait).err)
    ∧ (∀ e, env.createTagsError = some e → cfg.tags ≠ [] →
        (resourceAwsAmiCreate cfg env).trace
          = [Action.registerImage req, Action.createTags id cfg.tags]
        ∧ (resourceAwsAmiCreate cfg env).err = some ("error adding tags: " ++ e.message)
        ∧ (resourceAwsAmiCreate cfg env).stateId = some id)
    ∧ (∀ msg, env.waitError = some msg →
        (cfg.tags = [] ∨ env.createTagsError = none) →
        (resourceAwsAmiCreate cfg env).trace
          = [Action.registerImage req]
            ++ (if cfg.tags = [] then [] else [Action.createTags id cfg.tags])
            ++ [Action.waitForAvailable id]
        ∧ (resourceAwsAmiCreate cfg env).stateId = some id) := by
  by_cases htag : cfg.tags = []
  · have hcreate : resourceAwsAmiCreate cfg env
        = createWaitAndRead id [Action.registerImage req] env := by
      simp [resourceAwsAmiCreate, hb, hr, htag]
    have hs := createWaitAndRead_spec id [Action.registerImage req] env hid
    rw [hcreate]
    refine ⟨hs.1, ?_, ?_, ?_, ?_⟩
    · cases hw : env.waitError with
      | some msg => simp [(hs.2.2 msg hw).1]
      | none => simp [(hs.2.1 hw).1]
    · intro _ hwn
      have hsp := hs.2.1 hwn
      simp [htag, hsp.1, hsp.2]
    · intro e _ htags
      exact absurd htag htags
    · intro msg hw _
      have hsp := hs.2.2 msg hw
      simp [htag, hsp.1, hsp.2]
  · cases hct : env.createTagsError with
    | some e =>
      have hcreate : resourceAwsAmiCreate cfg env
          = { trace := [Action.registerImage req, Action.createTags id cfg.tags]
              stateId := some id
              err := some ("error adding tags: " ++ e.message) } := by
        simp [resourceAwsAmiCreate, hb, hr, htag, hct]
      rw [hcreate]
      refine ⟨by simp, by simp, ?_, ?_, ?_⟩
      · intro h1 _
        exact Option.noConfusion h1
      · intro e2 he2 _
        injection he2 with h3
        subst h3
        exact ⟨rfl, rfl, rfl⟩
      · intro msg _ hyp
        rcases hyp with h | h
        · exact absurd h htag
        · exact Option.noConfusion h
    | none =>
      have hcreate : resourceAwsAmiCreate cfg env
          = createWaitAndRead id
              [Action.registerImage req, Action.createTags id cfg.tags] env := by
        simp [resourceAwsAmiCreate, hb, hr, htag, hct]
      have hs := createWaitAndRead_spec id
        [Action.registerImage req, Action.createTags id cfg.tags] env hid
      rw [hcreate]
      refine ⟨hs.1, ?_, ?_, ?_, ?_⟩
      · cases hw : env.waitError with
        | some msg => simp [(hs.2.2 msg hw).1]
        | none => simp [(hs.2.1 hw).1]
      · intro _ hwn
        have hsp := hs.2.1 hwn
        simp [htag, hsp.1, hsp.2]
      · intro e2 he2 _
        exact Option.noConfusion he2
      · intro msg hw _
        have hsp := hs.2.2 msg hw
        simp [htag, hsp.1, hsp.2]

/-- Witness for C6: a create with one tag in which every call succeeds
issues register, tag application, wait and read in that order. -/
theorem create_records_id_and_sequences_steps_witness :
    (resourceAwsAmiCreate exCfgNoDevices exCreateEnvOk).trace
      = [Action.registerImage exReqNoDevices]
        ++ (if exCfgNoDevices.tags = [] then []
            else [Action.createTags "ami-12345678" exCfgNoDevices.tags])
        ++ [Action.waitForAvailable "ami-12345678", Action.read "ami-12345678"]
    ∧ (resourceAwsAmiCreate exCfgNoDevices exCreateEnvOk).err
      = (resourceAwsAmiRead "ami-12345678" true exCreateEnvOk.readDescribe
          exCreateEnvOk.readWait).err :=
  (create_records_id_and_sequences_steps exCfgNoDevices exCreateEnvOk exReqNoDevices
    "ami-12345678" rfl rfl (by decide)).2.2.1 rfl rfl

end TerraformProviderAws
